import Mathlib

/-!
Verification of `src/errors.rs` of the libdict repository: the `DictError`
enum, its `Display` implementation (`fmt`), its `std::error::Error`
implementation (`description` and `cause`), and the two `From` conversions
from `std::io::Error` and `std::string::FromUtf8Error`.

The two foreign error types are external to the repository; following the
spec they are modelled abstractly by the three facets the wrapping code
reads from them: a display rendering, a description string, and an optional
cause (itself a trait object exposing the same facets).
-/

/-- Model of a value behind a `&dyn std::error::Error` trait object, as the
wrapping code observes it: its `Display` rendering and its `description`. -/
structure ErrorObj where
  fmt : String
  desc : String
deriving DecidableEq, Repr

/-- Abstract model of the foreign `std::io::Error` type: the three facets
`errors.rs` delegates to (`Display`, `description`, `cause`). -/
structure IoErr where
  fmt : String
  desc : String
  cause : Option ErrorObj
deriving DecidableEq, Repr

/-- Abstract model of the foreign `std::string::FromUtf8Error` type: the three
facets `errors.rs` delegates to (`Display`, `description`, `cause`). -/
structure Utf8Err where
  fmt : String
  desc : String
  cause : Option ErrorObj
deriving DecidableEq, Repr

/-- The `DictError` enum of `src/errors.rs`, variant for variant.
`usize` payloads are modelled as `Nat`, `char` as `Char`, `String` as
`String`; the two wrapped foreign errors are the abstract models above. -/
inductive DictError where
  | InvalidCharacter : Char → Option Nat → Option Nat → DictError
  | MissingColumnInIndex : Nat → DictError
  | InvalidFileFormat : String → Option String → DictError
  | MemoryError : DictError
  | WordNotFound : String → DictError
  | IoError : IoErr → DictError
  | Utf8Error : Utf8Err → DictError
deriving DecidableEq, Repr

namespace DictError

/-- The `Display::fmt` implementation of `src/errors.rs` lines 28-51, as the
string it writes. Rust's line-continuation backslash in the
`MissingColumnInIndex` arm strips the newline and leading whitespace, and
`{}` on a `char` or `usize` renders the plain character / decimal digits. -/
def fmt : DictError → String
  | .IoError e => e.fmt
  | .Utf8Error e => e.fmt
  | .MemoryError => "not enough memory available"
  | .WordNotFound word => "Word not found: " ++ word
  | .InvalidCharacter ch line pos =>
      "Invalid character " ++ ch.toString ++
        (match line with
          | some ln => " on line " ++ toString ln
          | _ => "") ++
        (match pos with
          | some pos => " at position " ++ toString pos
          | _ => "")
  | .MissingColumnInIndex lnum =>
      "line " ++ toString lnum ++
        ": not enough <tab>-separated columns found, expected 3"
  | .InvalidFileFormat explanation path =>
      (path.getD "") ++ explanation

/-- The `Error::description` implementation of `src/errors.rs` lines 54-66
(the doubled s in "columnss" is verbatim from the source). -/
def description : DictError → String
  | .InvalidCharacter _ _ _ => "invalid character"
  | .MemoryError => "not enough memory available"
  | .WordNotFound _ => "word not found"
  | .MissingColumnInIndex _ => "not enough <tab>-separated columnss given"
  | .InvalidFileFormat _ _ => "could not determine file format"
  | .IoError err => err.desc
  | .Utf8Error err => err.desc

/-- The `Error::cause` implementation of `src/errors.rs` lines 68-74: the two
wrapped variants delegate to the wrapped error's own cause, everything else
is `None`. -/
def cause : DictError → Option ErrorObj
  | .IoError err => err.cause
  | .Utf8Error err => err.cause
  | _ => none

/-- The `impl From<std::io::Error> for DictError` of `src/errors.rs`
lines 78-82. -/
def fromIo (err : IoErr) : DictError := .IoError err

/-- The `impl From<std::string::FromUtf8Error> for DictError` of
`src/errors.rs` lines 84-88. -/
def fromUtf8 (err : Utf8Err) : DictError := .Utf8Error err

end DictError

/-- Two strings concatenate to the empty string exactly when both are empty. -/
theorem string_append_eq_empty_iff (a b : String) :
    a ++ b = "" ↔ a = "" ∧ b = "" := by
  constructor
  · intro h
    have hd : a.data ++ b.data = ([] : List Char) := congrArg String.data h
    rcases List.append_eq_nil.mp hd with ⟨ha, hb⟩
    exact ⟨String.ext ha, String.ext hb⟩
  · rintro ⟨rfl, rfl⟩
    rfl

/-- A string starting with a nonempty literal is nonempty. -/
theorem string_append_ne_empty_left (a b : String) (h : a ≠ "") :
    a ++ b ≠ "" := by
  intro hab
  exact h ((string_append_eq_empty_iff a b).mp hab).1

/-- C1 counterexample: the claim says the display output is never the empty
string, including for `InvalidFileFormat` with an empty explanation and
absent path — but exactly that value displays as the empty string. -/
theorem C1_display_empty_counterexample :
    DictError.fmt (DictError.InvalidFileFormat "" none) = "" := rfl

/-- C1 (amended): `fmt` is a total function (so display never panics), and its
output is non-empty for `InvalidCharacter`, `MissingColumnInIndex`,
`MemoryError` and `WordNotFound` unconditionally; for `InvalidFileFormat` the
output is empty exactly when both the rendered path and the explanation are
empty; the two wrapped variants reproduce the wrapped foreign error's own
message verbatim (so they are empty exactly when that message is). -/
theorem C1_display_total_nonempty_amended :
    (∀ ch ln ps, (DictError.InvalidCharacter ch ln ps).fmt ≠ "") ∧
    (∀ n, (DictError.MissingColumnInIndex n).fmt ≠ "") ∧
    DictError.MemoryError.fmt ≠ "" ∧
    (∀ w, (DictError.WordNotFound w).fmt ≠ "") ∧
    (∀ ex p, (DictError.InvalidFileFormat ex p).fmt = "" ↔
      (p.getD "" = "" ∧ ex = "")) ∧
    (∀ e, (DictError.IoError e).fmt = e.fmt) ∧
    (∀ u, (DictError.Utf8Error u).fmt = u.fmt) := by
  refine ⟨fun ch ln ps => ?_, fun n => ?_, by decide, fun w => ?_,
    fun ex p => ?_, fun _ => rfl, fun _ => rfl⟩
  · exact string_append_ne_empty_left "Invalid character " _ (by decide)
  · exact string_append_ne_empty_left "line " _ (by decide)
  · exact string_append_ne_empty_left "Word not found: " _ (by decide)
  · exact string_append_eq_empty_iff (p.getD "") ex

/-- C2 counterexample: the claim says a present line number contributes the
suffix ", on line {n}" (with a comma); the code writes " on line {n}" with a
space and no comma. -/
theorem C2_comma_counterexample :
    DictError.fmt (DictError.InvalidCharacter 'x' (some 5) none)
      ≠ "Invalid character x, on line 5" := by decide

/-- C2 (amended): the display of `InvalidCharacter(ch, line, pos)` is
"Invalid character {ch}" followed by " on line {n}" (space, no comma) if a
line number is present, followed by " at position {p}" if a position is
present; each suffix is independently omitted entirely when its option is
absent, so omitting both yields exactly "Invalid character {ch}". -/
theorem C2_invalid_character_display_amended :
    ∀ (ch : Char) (ln ps : Nat),
    (DictError.InvalidCharacter ch none none).fmt
        = "Invalid character " ++ ch.toString ∧
    (DictError.InvalidCharacter ch (some ln) none).fmt
        = "Invalid character " ++ ch.toString ++ " on line " ++ toString ln ∧
    (DictError.InvalidCharacter ch none (some ps)).fmt
        = "Invalid character " ++ ch.toString ++ " at position " ++ toString ps ∧
    (DictError.InvalidCharacter ch (some ln) (some ps)).fmt
        = "Invalid character " ++ ch.toString ++ " on line " ++ toString ln
            ++ " at position " ++ toString ps := by
  intro ch ln ps
  refine ⟨?_, ?_, ?_, ?_⟩ <;> simp [DictError.fmt, String.append_assoc]

/-- C3: the display of `InvalidFileFormat(explanation, path)` is the exact
concatenation of the path (empty string when absent) immediately followed by
the explanation, with no separator; in particular "bad magic bytes" with no
path displays as itself and with path "/tmp/x.dict" displays as
"/tmp/x.dictbad magic bytes". -/
theorem C3_invalid_file_format_display :
    (∀ (ex : String) (p : Option String),
      (DictError.InvalidFileFormat ex p).fmt = (p.getD "") ++ ex) ∧
    (DictError.InvalidFileFormat "bad magic bytes" none).fmt
        = "bad magic bytes" ∧
    (DictError.InvalidFileFormat "bad magic bytes" (some "/tmp/x.dict")).fmt
        = "/tmp/x.dictbad magic bytes" := by
  refine ⟨fun ex p => rfl, by decide, by decide⟩

/-- C4: each wrapping variant forwards all three facets of the wrapped foreign
error unchanged — display is its message, description is its description,
cause is its cause — so wrapping and reading back reproduces the original
facets verbatim. -/
theorem C4_wrapper_forwards_facets :
    (∀ e : IoErr, (DictError.IoError e).fmt = e.fmt ∧
      (DictError.IoError e).description = e.desc ∧
      (DictError.IoError e).cause = e.cause ∧
      (DictError.fromIo e).fmt = e.fmt ∧
      (DictError.fromIo e).description = e.desc ∧
      (DictError.fromIo e).cause = e.cause) ∧
    (∀ u : Utf8Err, (DictError.Utf8Error u).fmt = u.fmt ∧
      (DictError.Utf8Error u).description = u.desc ∧
      (DictError.Utf8Error u).cause = u.cause) :=
  ⟨fun _ => ⟨rfl, rfl, rfl, rfl, rfl, rfl⟩, fun _ => ⟨rfl, rfl, rfl⟩⟩

/-- C5: the cause accessor returns `none` unconditionally for every value of
each of the five domain-specific variants, and for the two wrapped variants
it delegates to the wrapped error's own cause (which may itself be absent). -/
theorem C5_cause_none_for_domain_variants :
    (∀ ch ln ps, (DictError.InvalidCharacter ch ln ps).cause = none) ∧
    (∀ n, (DictError.MissingColumnInIndex n).cause = none) ∧
    (∀ ex p, (DictError.InvalidFileFormat ex p).cause = none) ∧
    DictError.MemoryError.cause = none ∧
    (∀ w, (DictError.WordNotFound w).cause = none) ∧
    (∀ e, (DictError.IoError e).cause = e.cause) ∧
    (∀ u, (DictError.Utf8Error u).cause = u.cause) :=
  ⟨fun _ _ _ => rfl, fun _ => rfl, fun _ _ => rfl, rfl, fun _ => rfl,
    fun _ => rfl, fun _ => rfl⟩

/-- C6: the From-conversions are lossless — a foreign I/O error converts to
exactly the `IoError` variant carrying the error value itself, and a foreign
UTF-8 decoding error to exactly the `Utf8Error` variant carrying it. -/
theorem C6_from_conversions_lossless :
    (∀ e : IoErr, DictError.fromIo e = DictError.IoError e) ∧
    (∀ u : Utf8Err, DictError.fromUtf8 u = DictError.Utf8Error u) :=
  ⟨fun _ => rfl, fun _ => rfl⟩

/-- C7: for every non-wrapping variant the description is a fixed non-empty
string independent of the payload: "invalid character",
"not enough <tab>-separated columnss given" (sic),
"could not determine file format", "not enough memory available" and
"word not found". -/
theorem C7_description_fixed_nonempty :
    (∀ ch ln ps, (DictError.InvalidCharacter ch ln ps).description
        = "invalid character") ∧
    (∀ n, (DictError.MissingColumnInIndex n).description
        = "not enough <tab>-separated columnss given") ∧
    (∀ ex p, (DictError.InvalidFileFormat ex p).description
        = "could not determine file format") ∧
    DictError.MemoryError.description = "not enough memory available" ∧
    (∀ w, (DictError.WordNotFound w).description = "word not found") ∧
    (∀ ch ln ps, (DictError.InvalidCharacter ch ln ps).description ≠ "") ∧
    (∀ n, (DictError.MissingColumnInIndex n).description ≠ "") ∧
    (∀ ex p, (DictError.InvalidFileFormat ex p).description ≠ "") ∧
    DictError.MemoryError.description ≠ "" ∧
    (∀ w, (DictError.WordNotFound w).description ≠ "") :=
  ⟨fun _ _ _ => rfl, fun _ => rfl, fun _ _ => rfl, rfl, fun _ => rfl,
    fun _ _ _ => show "invalid character" ≠ "" by decide,
    fun _ => show "not enough <tab>-separated columnss given" ≠ "" by decide,
    fun _ _ => show "could not determine file format" ≠ "" by decide,
    by decide,
    fun _ => show "word not found" ≠ "" by decide⟩

/-- C8: for every line number n, `MissingColumnInIndex n` displays exactly
"line {n}: not enough <tab>-separated columns found, expected 3"; in
particular for n = 42. -/
theorem C8_missing_column_display :
    (∀ n : Nat, (DictError.MissingColumnInIndex n).fmt
      = "line " ++ toString n
          ++ ": not enough <tab>-separated columns found, expected 3") ∧
    (DictError.MissingColumnInIndex 42).fmt
      = "line 42: not enough <tab>-separated columns found, expected 3" :=
  ⟨fun _ => rfl, by decide⟩

/-- C9: the inspection operations are deterministic pure functions of the
error value alone — in this embedding `fmt`, `description` and `cause` are
total functions of the `DictError` value (the source reads no ambient state
and mutates nothing), so any two invocations on the same value agree. -/
theorem C9_inspections_deterministic :
    ∀ d : DictError,
      d.fmt = d.fmt ∧ d.description = d.description ∧ d.cause = d.cause :=
  fun _ => ⟨rfl, rfl, rfl⟩

/-- C10: for `MemoryError` the short description and the full display message
are the same string, "not enough memory available". -/
theorem C10_memory_error_same_strings :
    DictError.MemoryError.fmt = "not enough memory available" ∧
    DictError.MemoryError.description = "not enough memory available" ∧
    DictError.MemoryError.fmt = DictError.MemoryError.description :=
  ⟨rfl, rfl, rfl⟩
